import Mathlib

/-! # Smaragdine lexer matchers — verification development

Shallow embedding of `src/src/libsmac/src/lexer/matcher.rs` (the five built-in
`Matcher` implementations) together with the parts of the surrounding crate
they depend on (the Tokenizer cursor, the Token data model, the Lexer driving
loop) which are not among the sources and are therefore modelled from the
spec.  Machine integers are modelled as `Nat` with explicit `2 ^ 64` bounds,
Rust `panic!` is modelled as an explicit `MatchResult.panicked` outcome, and
Rust `String::len` (UTF-8 byte length) is modelled by `rustStrLen`.
-/

set_option maxRecDepth 4000

namespace Smaragdine

/-- Rust `char::to_digit(radix)`: the usual digit value through `0`-`9`,
`a`-`z`, `A`-`Z`, defined exactly when that value is below `radix`. -/
def rustToDigit (radix : Nat) (c : Char) : Option Nat :=
  let d : Option Nat :=
    if '0' ≤ c ∧ c ≤ '9' then some (c.toNat - '0'.toNat)
    else if 'a' ≤ c ∧ c ≤ 'z' then some (c.toNat - 'a'.toNat + 10)
    else if 'A' ≤ c ∧ c ≤ 'Z' then some (c.toNat - 'A'.toNat + 10)
    else none
  match d with
  | some v => if v < radix then some v else none
  | none => none

/-- Rust `char::is_digit(radix)`. -/
def rustIsDigit (radix : Nat) (c : Char) : Bool :=
  (rustToDigit radix c).isSome

/-- Rust `char::is_whitespace`: the Unicode `White_Space` property,
whose full code-point list is enumerated here. -/
def rustIsWhitespace (c : Char) : Bool :=
  [0x9, 0xA, 0xB, 0xC, 0xD, 0x20, 0x85, 0xA0, 0x1680,
   0x2000, 0x2001, 0x2002, 0x2003, 0x2004, 0x2005, 0x2006, 0x2007,
   0x2008, 0x2009, 0x200A, 0x2028, 0x2029, 0x202F, 0x205F, 0x3000].contains c.toNat

/-- ASCII fragment of Rust `char::is_alphabetic` (the Unicode `Alphabetic`
property); the full Unicode table is out of scope and every input considered
in this development is ASCII. -/
def rustIsAlphabetic (c : Char) : Bool :=
  ('a' ≤ c && c ≤ 'z') || ('A' ≤ c && c ≤ 'Z')

/-- ASCII fragment of Rust `char::is_alphanumeric` (Alphabetic plus the
decimal digits), with the same ASCII restriction as `rustIsAlphabetic`. -/
def rustIsAlphanumeric (c : Char) : Bool :=
  rustIsAlphabetic c || ('0' ≤ c && c ≤ '9')

/-- UTF-8 byte count of one character, as Rust encodes `char` into `String`. -/
def rustCharLen (c : Char) : Nat :=
  if c.toNat < 0x80 then 1
  else if c.toNat < 0x800 then 2
  else if c.toNat < 0x10000 then 3
  else 4

/-- Rust `String::len`: the UTF-8 byte length of the accumulated content
(NOT the character count). -/
def rustStrLen (s : List Char) : Nat :=
  (s.map rustCharLen).sum

/-- Modelled from the spec: `TokenType` (file `lexer/token.rs` is not among
the sources).  An open tag with the built-in variants plus the caller-defined
`Symbol` variant used by the demo entry point. -/
inductive TokenType where
  | Whitespace
  | IntLiteral
  | CharLiteral
  | StringLiteral
  | Identifier
  | Symbol
deriving DecidableEq, Repr

/-- Modelled from the spec: `Token` (file `lexer/token.rs` is not among the
sources): a kind, the cursor position stamped at construction, and the
lexeme text. -/
structure Token where
  token_type : TokenType
  position : Nat
  lexeme : String
deriving DecidableEq, Repr

/-- Modelled from the spec: the `Tokenizer` cursor (file `lexer/mod.rs` or
`lexer/tokenizer.rs` is not among the sources): the in-memory character
sequence plus the current offset into it. -/
structure Tokenizer where
  input : List Char
  pos : Nat
deriving DecidableEq, Repr

/-- Modelled from the spec: `peek()` returns the character at the current
offset without consuming. -/
def Tokenizer.peek (t : Tokenizer) : Option Char :=
  t.input.get? t.pos

/-- Modelled from the spec: `peek_n(k)` returns the character `k` positions
ahead of the current offset, or `none` past the end. -/
def Tokenizer.peekN (t : Tokenizer) (k : Nat) : Option Char :=
  t.input.get? (t.pos + k)

/-- Modelled from the spec: `advance(n)` consumes `n` characters without
inspecting them. -/
def Tokenizer.advance (t : Tokenizer) (n : Nat) : Tokenizer :=
  { t with pos := t.pos + n }

/-- Modelled from the spec: `end()` is true iff no characters remain
(the name `end` is a Lean keyword, hence `isEnd`). -/
def Tokenizer.isEnd (t : Tokenizer) : Bool :=
  t.input.length ≤ t.pos

/-- Modelled from the spec: `last_position()` is the current offset, used to
stamp newly produced tokens. -/
def Tokenizer.lastPosition (t : Tokenizer) : Nat :=
  t.pos

/-- Modelled from the spec: the Tokenizer's `Iterator` implementation does
not override `size_hint`, so it reports Rust's default `(0, None)` upper
bound; this is what makes `ConstantMatcher`'s remaining-length guard
vacuous and lets it move on to the next constant, matching the spec's
"declines only after all constants have been tried and failed". -/
def Tokenizer.sizeHintUpper (_ : Tokenizer) : Option Nat :=
  none

/-- Outcome of one `try_match` call: Rust `None`, Rust `Some(token)`, or a
Rust `panic!` with its message (modelled explicitly so that abrupt process
termination is visible in the embedding). -/
inductive MatchResult where
  | declined
  | matched (tok : Token)
  | panicked (msg : String)
deriving DecidableEq, Repr

/-- While-loop of `WhitespaceMatcher::try_match` over the remaining input:
the number of consecutive leading whitespace characters it consumes. -/
def WhitespaceMatcher.wsCount : List Char → Nat
  | [] => 0
  | c :: cs => if rustIsWhitespace c then WhitespaceMatcher.wsCount cs + 1 else 0

/-- `WhitespaceMatcher::try_match`: consume whitespace while any remains;
emit a Whitespace token with empty lexeme iff at least one character was
consumed, otherwise decline. -/
def WhitespaceMatcher.tryMatch (t : Tokenizer) : MatchResult × Tokenizer :=
  let n := WhitespaceMatcher.wsCount (t.input.drop t.pos)
  if n = 0 then (.declined, t)
  else
    let t2 := t.advance n
    (.matched ⟨TokenType.Whitespace, t2.lastPosition, ""⟩, t2)

/-- Digit-scanning while-loop of `IntLiteralMatcher::try_match`: the maximal
leading run of characters valid in the given base. -/
def IntLiteralMatcher.digitsLoop (base : Nat) : List Char → List Char
  | [] => []
  | c :: cs =>
    if rustIsDigit base c then c :: IntLiteralMatcher.digitsLoop base cs else []

/-- Value of the accumulated digit string in the given base, as
`u64::from_str_radix` computes it (overflow is checked against `2 ^ 64`
at the use site). -/
def IntLiteralMatcher.fromDigits (base : Nat) (ds : List Char) : Nat :=
  ds.foldl (fun acc c => acc * base + (rustToDigit base c).getD 0) 0

/-- `IntLiteralMatcher::try_match`: inspect the current character and the one
after it to choose base 16 (`0x`), base 2 (`0b`) or base 10; skip the
two-character prefix for a non-decimal base; scan a maximal digit run; parse
it as `u64` (panicking on overflow, as the source does) and emit an
IntLiteral token whose lexeme is the base-10 rendering; decline if no digit
was accumulated.  `peek().unwrap()` at end of input is the `unwrap` panic. -/
def IntLiteralMatcher.tryMatch (t : Tokenizer) : MatchResult × Tokenizer :=
  match t.peek with
  | none => (.panicked "called Option::unwrap on a None value", t)
  | some c0 =>
    let base : Nat :=
      if c0 = '0' then
        match t.peekN 1 with
        | some c1 => if c1 = 'x' then 16 else if c1 = 'b' then 2 else 10
        | none => 10
      else 10
    let t1 := if base ≠ 10 then t.advance 2 else t
    let accum := IntLiteralMatcher.digitsLoop base (t1.input.drop t1.pos)
    let t2 := t1.advance accum.length
    if accum ≠ [] then
      let v := IntLiteralMatcher.fromDigits base accum
      if v < 2 ^ 64 then
        (.matched ⟨TokenType.IntLiteral, t2.lastPosition, Nat.repr v⟩, t2)
      else
        (.panicked "Unable to parse integer literal: number too large to fit in target type", t2)
    else (.declined, t2)

/-- Escape translation table of `StringLiteralMatcher::try_match` for
double-quoted content; `none` is the invalid-escape panic. -/
def StringLiteralMatcher.escapeChar : Char → Option Char
  | '\\' => some '\\'
  | '"' => some '"'
  | 'n' => some '\n'
  | 'r' => some '\r'
  | 't' => some '\t'
  | _ => none

/-- Scan loop of `StringLiteralMatcher::try_match` over the input remaining
after the opening delimiter, carrying the `found_escape` flag: returns the
accumulated content together with the number of characters consumed, or the
offending character of an invalid escape (the source's panic). -/
def StringLiteralMatcher.scanLoop (delim : Char) :
    Bool → List Char → Except Char (List Char × Nat)
  | _, [] => .ok ([], 0)
  | foundEscape, c :: cs =>
    if delim = '\'' then
      if c = '\'' then .ok ([], 0)
      else
        match StringLiteralMatcher.scanLoop delim foundEscape cs with
        | .ok (s, n) => .ok (c :: s, n + 1)
        | .error e => .error e
    else
      if foundEscape then
        match StringLiteralMatcher.escapeChar c with
        | some c2 =>
          match StringLiteralMatcher.scanLoop delim false cs with
          | .ok (s, n) => .ok (c2 :: s, n + 1)
          | .error e => .error e
        | none => .error c
      else
        if c = '\\' then
          match StringLiteralMatcher.scanLoop delim true cs with
          | .ok (s, n) => .ok (s, n + 1)
          | .error e => .error e
        else if c = '"' then .ok ([], 0)
        else
          match StringLiteralMatcher.scanLoop delim false cs with
          | .ok (s, n) => .ok (c :: s, n + 1)
          | .error e => .error e

/-- `StringLiteralMatcher::try_match`: decline unless the current character
is `"` or `'`; consume the opening delimiter, run the scan loop, then skip
one character as the closing delimiter unconditionally; emit a CharLiteral
when the content's Rust `String::len` (UTF-8 bytes) is exactly 1 and a
StringLiteral otherwise.  An invalid escape is the source's panic. -/
def StringLiteralMatcher.tryMatch (t : Tokenizer) : MatchResult × Tokenizer :=
  match t.peek with
  | none => (.panicked "called Option::unwrap on a None value", t)
  | some c0 =>
    if c0 = '"' ∨ c0 = '\'' then
      let t1 := t.advance 1
      match StringLiteralMatcher.scanLoop c0 false (t1.input.drop t1.pos) with
      | .ok (s, n) =>
        let t2 := (t1.advance n).advance 1
        if rustStrLen s = 1 then
          (.matched ⟨TokenType.CharLiteral, t2.lastPosition, String.mk s⟩, t2)
        else
          (.matched ⟨TokenType.StringLiteral, t2.lastPosition, String.mk s⟩, t2)
      | .error e => (.panicked ("Invalid character escape: " ++ String.mk [e]), t1)
    else (.declined, t)

/-- `ConstantMatcher`: a caller-supplied token type together with the ordered
list of constant strings it recognizes. -/
structure ConstantMatcher where
  token_type : TokenType
  constants : List (List Char)
deriving DecidableEq, Repr

/-- Upper `size_hint` bound of `tokenizer.clone().take(n)`: Rust
`Take::size_hint` caps the inner upper bound at `n`, and an absent inner
bound gives `n` itself. -/
def ConstantMatcher.takeUpperBound (innerUpper : Option Nat) (n : Nat) : Nat :=
  match innerUpper with
  | some u => min u n
  | none => n

/-- For-loop of `ConstantMatcher::try_match`: probe each constant in list
order against the upcoming input (via a cloned cursor, consuming nothing);
the `size_hint` guard returns `None` outright when it reports fewer than
`constant.len()` characters (with the default `size_hint` it never fires);
on the first constant equal to the probed text, consume exactly its length
and emit a token of the configured type with the constant as lexeme. -/
def ConstantMatcher.loop (ty : TokenType) (t : Tokenizer) :
    List (List Char) → MatchResult × Tokenizer
  | [] => (.declined, t)
  | c :: rest =>
    let dat := (t.input.drop t.pos).take c.length
    if ConstantMatcher.takeUpperBound t.sizeHintUpper c.length ≠ c.length then
      (.declined, t)
    else if dat = c then
      let t2 := t.advance c.length
      (.matched ⟨ty, t2.lastPosition, String.mk c⟩, t2)
    else ConstantMatcher.loop ty t rest

/-- `ConstantMatcher::try_match`. -/
def ConstantMatcher.tryMatch (m : ConstantMatcher) (t : Tokenizer) :
    MatchResult × Tokenizer :=
  ConstantMatcher.loop m.token_type t m.constants

/-- Continuation-character test of `IdentifierMatcher::try_match`:
not whitespace, and in `"_?!"` or alphanumeric. -/
def IdentifierMatcher.isIdentCont (c : Char) : Bool :=
  !rustIsWhitespace c && (c = '_' || c = '?' || c = '!' || rustIsAlphanumeric c)

/-- While-loop of `IdentifierMatcher::try_match`: the maximal leading run of
continuation characters. -/
def IdentifierMatcher.identLoop : List Char → List Char
  | [] => []
  | c :: cs =>
    if IdentifierMatcher.isIdentCont c then c :: IdentifierMatcher.identLoop cs
    else []

/-- `IdentifierMatcher::try_match`: the source consumes the current character
with `next().unwrap()` BEFORE testing it, so on the decline path (first
character neither alphabetic nor underscore) the offset has already moved by
one; on success it scans a maximal continuation run and emits an Identifier
token with the accumulated text. -/
def IdentifierMatcher.tryMatch (t : Tokenizer) : MatchResult × Tokenizer :=
  match t.peek with
  | none => (.panicked "called Option::unwrap on a None value", t)
  | some curr =>
    let t1 := t.advance 1
    if rustIsAlphabetic curr || curr = '_' then
      let run := IdentifierMatcher.identLoop (t1.input.drop t1.pos)
      let t2 := t1.advance run.length
      let identifier := curr :: run
      if identifier ≠ [] then
        (.matched ⟨TokenType.Identifier, t2.lastPosition, String.mk identifier⟩, t2)
      else (.declined, t2)
    else (.declined, t1)

/-- Result of driving the Lexer: the token sequence, an unrecognized-input
failure at a position, a propagated matcher panic, or fuel exhaustion of the
model (the Rust loop has no fuel; enough fuel is supplied at every use). -/
inductive LexResult where
  | ok (toks : List Token)
  | unrecognizedInput (pos : Nat)
  | panic (msg : String)
  | outOfFuel
deriving DecidableEq, Repr

/-- Modelled from the spec: one Lexer step tries each registered matcher in
order, handing the (possibly mutated) tokenizer on to the next candidate when
one declines, and commits to the first success. -/
def firstMatch : List (Tokenizer → MatchResult × Tokenizer) → Tokenizer →
    MatchResult × Tokenizer
  | [], t => (.declined, t)
  | m :: ms, t =>
    match m t with
    | (.declined, t2) => firstMatch ms t2
    | r => r

/-- Modelled from the spec: the Lexer driving loop (file `lexer/mod.rs` is
not among the sources).  Stop when the Tokenizer is at end of input;
otherwise run the matchers in registration order; when none accepts, fail
with UnrecognizedInput at the current position. -/
def runLexer (ms : List (Tokenizer → MatchResult × Tokenizer)) :
    Nat → Tokenizer → LexResult
  | 0, _ => .outOfFuel
  | fuel + 1, t =>
    if t.isEnd then .ok []
    else
      match firstMatch ms t with
      | (.matched tok, t2) =>
        match runLexer ms fuel t2 with
        | .ok toks => .ok (tok :: toks)
        | r => r
      | (.declined, _) => .unrecognizedInput t.pos
      | (.panicked msg, _) => .panic msg

section Lemmas

theorem drop_cons_of_get {α : Type} {l : List α} {n : Nat} {c : α}
    (h : l.get? n = some c) : l.drop n = c :: l.drop (n + 1) := by
  induction l generalizing n with
  | nil => simp at h
  | cons a as ih =>
    cases n with
    | zero => simp_all
    | succ m => simpa using ih (by simpa using h)

theorem wsCount_eq_takeWhile (l : List Char) :
    WhitespaceMatcher.wsCount l = (l.takeWhile rustIsWhitespace).length := by
  induction l with
  | nil => rfl
  | cons c cs ih =>
    by_cases h : rustIsWhitespace c <;>
      simp [WhitespaceMatcher.wsCount, List.takeWhile_cons, h, ih]

theorem digitsLoop_all (base : Nat) (l : List Char)
    (h : ∀ c ∈ l, rustIsDigit base c = true) :
    IntLiteralMatcher.digitsLoop base l = l := by
  induction l with
  | nil => rfl
  | cons c cs ih =>
    have hc : rustIsDigit base c = true := h c (by simp)
    simp [IntLiteralMatcher.digitsLoop, hc, ih fun d hd => h d (by simp [hd])]

theorem identLoop_eq_takeWhile (l : List Char) :
    IdentifierMatcher.identLoop l = l.takeWhile IdentifierMatcher.isIdentCont := by
  induction l with
  | nil => rfl
  | cons c cs ih =>
    by_cases h : IdentifierMatcher.isIdentCont c <;>
      simp [IdentifierMatcher.identLoop, List.takeWhile_cons, h, ih]

theorem scanLoop_squote_all (b : Bool) (rest : List Char) (h : '\'' ∉ rest) :
    StringLiteralMatcher.scanLoop '\'' b rest = .ok (rest, rest.length) := by
  induction rest generalizing b with
  | nil => rfl
  | cons c cs ih =>
    have hc : c ≠ '\'' := fun hc => h (by simp [hc])
    simp [StringLiteralMatcher.scanLoop, hc, ih b fun hm => h (by simp [hm])]

theorem scanLoop_squote_stop (b : Bool) (l r : List Char) (h : '\'' ∉ l) :
    StringLiteralMatcher.scanLoop '\'' b (l ++ '\'' :: r) = .ok (l, l.length) := by
  induction l generalizing b with
  | nil => simp [StringLiteralMatcher.scanLoop]
  | cons c cs ih =>
    have hc : c ≠ '\'' := fun hc => h (by simp [hc])
    simp [StringLiteralMatcher.scanLoop, hc, ih b fun hm => h (by simp [hm])]

theorem scanLoop_dquote_plain (rest : List Char) (hq : '"' ∉ rest)
    (hb : '\\' ∉ rest) :
    StringLiteralMatcher.scanLoop '"' false rest = .ok (rest, rest.length) := by
  induction rest with
  | nil => rfl
  | cons c cs ih =>
    have hcq : c ≠ '"' := fun h => hq (by simp [h])
    have hcb : c ≠ '\\' := fun h => hb (by simp [h])
    simp [StringLiteralMatcher.scanLoop, hcq, hcb,
      ih (fun hm => hq (by simp [hm])) (fun hm => hb (by simp [hm]))]

theorem wsCount_all (l : List Char) (h : ∀ c ∈ l, rustIsWhitespace c = true) :
    WhitespaceMatcher.wsCount l = l.length := by
  induction l with
  | nil => rfl
  | cons c cs ih =>
    simp [WhitespaceMatcher.wsCount, h c (by simp), ih fun d hd => h d (by simp [hd])]

end Lemmas

/-- C1: the no-partial-consumption-on-decline invariant FAILS on the code.
`IdentifierMatcher::try_match` consumes the current character with
`next().unwrap()` before testing it, so declining on input `1` leaves the
offset at 1, not 0; `IntLiteralMatcher::try_match` skips a detected `0x`
prefix with `advance(2)` before scanning, so declining on `0xg` (no valid
hexadecimal digit after the prefix) leaves the offset at 2, not 0.  The
remaining three matchers do leave the offset unchanged when they decline, as
the sampled evaluations show. -/
theorem decline_moves_offset_evaluation :
    IdentifierMatcher.tryMatch ⟨['1'], 0⟩ = (.declined, ⟨['1'], 1⟩) ∧
    IntLiteralMatcher.tryMatch ⟨['0', 'x', 'g'], 0⟩ = (.declined, ⟨['0', 'x', 'g'], 2⟩) ∧
    WhitespaceMatcher.tryMatch ⟨['a'], 0⟩ = (.declined, ⟨['a'], 0⟩) ∧
    StringLiteralMatcher.tryMatch ⟨['a'], 0⟩ = (.declined, ⟨['a'], 0⟩) ∧
    ConstantMatcher.tryMatch ⟨TokenType.Symbol, [['(']]⟩ ⟨['a'], 0⟩ = (.declined, ⟨['a'], 0⟩) := by
  exact ⟨by decide, by decide, by decide, by decide, by decide⟩

/-- C5: the code does NOT surface invalid escapes or numeric overflow as
recoverable typed failures — it panics.  An unsupported escape `\q` inside a
double-quoted string hits `panic!("Invalid character escape: ...")`, and the
digit run `18446744073709551616` (= 2^64, one past `u64::MAX`) makes
`u64::from_str_radix` fail and hits the overflow `panic!`. -/
theorem invalid_escape_and_overflow_panic :
    (StringLiteralMatcher.tryMatch ⟨['"', '\\', 'q', '"'], 0⟩).1 =
      .panicked "Invalid character escape: q" ∧
    (IntLiteralMatcher.tryMatch ⟨"18446744073709551616".data, 0⟩).1 =
      .panicked "Unable to parse integer literal: number too large to fit in target type" := by
  exact ⟨by decide, by decide⟩

/-- C10: a `ConstantMatcher` whose constant list contains the empty string
matches at every position — end of input included — as soon as no earlier
constant matches first: the probe of the empty constant compares zero taken
characters with the empty string, which always succeeds, so the matcher
emits a token of the configured kind with an empty lexeme while consuming
nothing (the returned tokenizer is the argument itself, so the same call
would match again at the same position). -/
theorem empty_constant_matches_everywhere
    (ty : TokenType) (pre post : List (List Char)) (t : Tokenizer)
    (h : ∀ c ∈ pre, (t.input.drop t.pos).take c.length ≠ c) :
    ConstantMatcher.tryMatch ⟨ty, pre ++ [] :: post⟩ t =
      (.matched ⟨ty, t.pos, ""⟩, t) := by
  induction pre with
  | nil =>
    show ConstantMatcher.loop ty t ([] :: post) = _
    simp [ConstantMatcher.loop, ConstantMatcher.takeUpperBound,
      Tokenizer.sizeHintUpper, Tokenizer.advance, Tokenizer.lastPosition]
  | cons p ps ih =>
    have hp : (t.input.drop t.pos).take p.length ≠ p := h p (by simp)
    have ihp := ih fun c hc => h c (by simp [hc])
    show ConstantMatcher.loop ty t (p :: (ps ++ [] :: post)) = _
    simpa [ConstantMatcher.loop, ConstantMatcher.takeUpperBound,
      Tokenizer.sizeHintUpper, hp] using ihp

/-- Witness for C10: with constants `["==", ""]` the empty constant matches
at end of input, emitting an empty-lexeme Symbol token and consuming
nothing. -/
theorem empty_constant_matches_everywhere_at_eof :
    ConstantMatcher.tryMatch ⟨TokenType.Symbol, [['=', '='], []]⟩ ⟨[], 0⟩ =
      (.matched ⟨TokenType.Symbol, 0, ""⟩, ⟨[], 0⟩) :=
  empty_constant_matches_everywhere TokenType.Symbol [['=', '=']] [] ⟨[], 0⟩
    (by decide)

/-- C3: `ConstantMatcher::try_match` tries its constants in list order
without consuming: a head constant equal to the upcoming input is consumed
exactly (offset moved by its length) and emitted with the configured kind
and the constant as lexeme; a head constant that differs — in particular any
constant longer than the remaining input — is skipped and the rest of the
list is tried; the empty list declines.  Consequently constants
`["==", "="]` on input `==` produce the single token `==`. -/
theorem constant_matcher_first_match_in_order :
    (∀ (ty : TokenType) (c : List Char) (cs : List (List Char)) (t : Tokenizer),
      (t.input.drop t.pos).take c.length = c →
      ConstantMatcher.tryMatch ⟨ty, c :: cs⟩ t =
        (.matched ⟨ty, t.pos + c.length, String.mk c⟩, ⟨t.input, t.pos + c.length⟩)) ∧
    (∀ (ty : TokenType) (c : List Char) (cs : List (List Char)) (t : Tokenizer),
      (t.input.drop t.pos).take c.length ≠ c →
      ConstantMatcher.tryMatch ⟨ty, c :: cs⟩ t = ConstantMatcher.tryMatch ⟨ty, cs⟩ t) ∧
    (∀ (ty : TokenType) (c : List Char) (cs : List (List Char)) (t : Tokenizer),
      t.input.length - t.pos < c.length →
      ConstantMatcher.tryMatch ⟨ty, c :: cs⟩ t = ConstantMatcher.tryMatch ⟨ty, cs⟩ t) ∧
    (∀ (ty : TokenType) (t : Tokenizer),
      ConstantMatcher.tryMatch ⟨ty, []⟩ t = (.declined, t)) ∧
    runLexer [ConstantMatcher.tryMatch ⟨TokenType.Symbol, [['=', '='], ['=']]⟩] 2
      ⟨['=', '='], 0⟩ = .ok [⟨TokenType.Symbol, 2, "=="⟩] := by
  refine ⟨?_, ?_, ?_, ?_, by decide⟩
  · intro ty c cs t hc
    show ConstantMatcher.loop ty t (c :: cs) = _
    simp [ConstantMatcher.loop, ConstantMatcher.takeUpperBound,
      Tokenizer.sizeHintUpper, hc, Tokenizer.advance, Tokenizer.lastPosition]
  · intro ty c cs t hc
    show ConstantMatcher.loop ty t (c :: cs) = ConstantMatcher.loop ty t cs
    simp [ConstantMatcher.loop, ConstantMatcher.takeUpperBound,
      Tokenizer.sizeHintUpper, hc]
  · intro ty c cs t hlen
    have hshort : ((t.input.drop t.pos).take c.length).length < c.length := by
      simp only [List.length_take, List.length_drop]
      omega
    have hne : (t.input.drop t.pos).take c.length ≠ c := fun hEq => by
      rw [hEq] at hshort
      exact Nat.lt_irrefl _ hshort
    show ConstantMatcher.loop ty t (c :: cs) = ConstantMatcher.loop ty t cs
    simp [ConstantMatcher.loop, ConstantMatcher.takeUpperBound,
      Tokenizer.sizeHintUpper, hne]
  · intro ty t
    rfl

/-- Witness for C3: the constant `(` at the head of the list matches input
`(a`, consuming exactly one character; a mismatching head `))` is skipped in
favour of the tail; a two-character constant is skipped when only one
character remains; the empty constant list declines. -/
theorem constant_matcher_first_match_in_order_witness :
    ConstantMatcher.tryMatch ⟨TokenType.Symbol, [['(']]⟩ ⟨['(', 'a'], 0⟩ =
      (.matched ⟨TokenType.Symbol, 0 + 1, String.mk ['(']⟩, ⟨['(', 'a'], 0 + 1⟩) ∧
    ConstantMatcher.tryMatch ⟨TokenType.Symbol, [[')', ')'], ['(']]⟩ ⟨['(', 'a'], 0⟩ =
      ConstantMatcher.tryMatch ⟨TokenType.Symbol, [['(']]⟩ ⟨['(', 'a'], 0⟩ ∧
    ConstantMatcher.tryMatch ⟨TokenType.Symbol, [['=', '='], ['=']]⟩ ⟨['='], 0⟩ =
      ConstantMatcher.tryMatch ⟨TokenType.Symbol, [['=']]⟩ ⟨['='], 0⟩ ∧
    ConstantMatcher.tryMatch ⟨TokenType.Symbol, []⟩ ⟨['('], 0⟩ = (.declined, ⟨['('], 0⟩) :=
  ⟨constant_matcher_first_match_in_order.1 TokenType.Symbol ['('] [] ⟨['(', 'a'], 0⟩
      (by decide),
   constant_matcher_first_match_in_order.2.1 TokenType.Symbol [')', ')'] [['(']]
      ⟨['(', 'a'], 0⟩ (by decide),
   constant_matcher_first_match_in_order.2.2.1 TokenType.Symbol ['=', '='] [['=']]
      ⟨['='], 0⟩ (by decide),
   constant_matcher_first_match_in_order.2.2.2.1 TokenType.Symbol ⟨['('], 0⟩⟩

/-- C2: the lexeme of an accepted integer literal whose value fits in an
unsigned 64-bit integer is the canonical base-10 decimal rendering of the
parsed value regardless of input base: any all-decimal digit string yields
`Nat.repr` of its value (so `007` yields `7`), a `0x`-prefixed hexadecimal
digit string and a `0b`-prefixed binary digit string yield the decimal
rendering of their values (`0x1A` yields `26`, `0b101` yields `5`). -/
theorem intliteral_lexeme_decimal_normalized :
    (∀ ds : List Char, ds ≠ [] → (∀ c ∈ ds, rustIsDigit 10 c = true) →
      IntLiteralMatcher.fromDigits 10 ds < 2 ^ 64 →
      IntLiteralMatcher.tryMatch ⟨ds, 0⟩ =
        (.matched ⟨TokenType.IntLiteral, ds.length,
          Nat.repr (IntLiteralMatcher.fromDigits 10 ds)⟩, ⟨ds, ds.length⟩)) ∧
    (∀ ds : List Char, ds ≠ [] → (∀ c ∈ ds, rustIsDigit 16 c = true) →
      IntLiteralMatcher.fromDigits 16 ds < 2 ^ 64 →
      IntLiteralMatcher.tryMatch ⟨'0' :: 'x' :: ds, 0⟩ =
        (.matched ⟨TokenType.IntLiteral, 2 + ds.length,
          Nat.repr (IntLiteralMatcher.fromDigits 16 ds)⟩, ⟨'0' :: 'x' :: ds, 2 + ds.length⟩)) ∧
    (∀ ds : List Char, ds ≠ [] → (∀ c ∈ ds, rustIsDigit 2 c = true) →
      IntLiteralMatcher.fromDigits 2 ds < 2 ^ 64 →
      IntLiteralMatcher.tryMatch ⟨'0' :: 'b' :: ds, 0⟩ =
        (.matched ⟨TokenType.IntLiteral, 2 + ds.length,
          Nat.repr (IntLiteralMatcher.fromDigits 2 ds)⟩, ⟨'0' :: 'b' :: ds, 2 + ds.length⟩)) ∧
    IntLiteralMatcher.tryMatch ⟨"007".data, 0⟩ =
      (.matched ⟨TokenType.IntLiteral, 3, "7"⟩, ⟨"007".data, 3⟩) ∧
    IntLiteralMatcher.tryMatch ⟨"0x1A".data, 0⟩ =
      (.matched ⟨TokenType.IntLiteral, 4, "26"⟩, ⟨"0x1A".data, 4⟩) ∧
    IntLiteralMatcher.tryMatch ⟨"0b101".data, 0⟩ =
      (.matched ⟨TokenType.IntLiteral, 5, "5"⟩, ⟨"0b101".data, 5⟩) := by
  refine ⟨?_, ?_, ?_, by decide, by decide, by decide⟩
  · intro ds hne hdig hfit
    obtain ⟨d, tl, rfl⟩ : ∃ d tl, ds = d :: tl := by
      cases ds with
      | nil => exact absurd rfl hne
      | cons d tl => exact ⟨d, tl, rfl⟩
    norm_num at hfit
    have hall : IntLiteralMatcher.digitsLoop 10 (d :: tl) = d :: tl :=
      digitsLoop_all 10 _ hdig
    by_cases hd0 : d = '0'
    · subst hd0
      cases tl with
      | nil =>
        simp only [IntLiteralMatcher.tryMatch, Tokenizer.peek, Tokenizer.peekN,
          Tokenizer.advance, Tokenizer.lastPosition, List.drop_zero, hall]
        simp [hall, hfit]
      | cons e tl2 =>
        have he := hdig e (by simp)
        have hex : e ≠ 'x' := fun h => by rw [h] at he; exact absurd he (by decide)
        have heb : e ≠ 'b' := fun h => by rw [h] at he; exact absurd he (by decide)
        simp only [IntLiteralMatcher.tryMatch, Tokenizer.peek, Tokenizer.peekN,
          Tokenizer.advance, Tokenizer.lastPosition, List.drop_zero, hall]
        simp [hall, hex, heb, hfit]
    · simp only [IntLiteralMatcher.tryMatch, Tokenizer.peek, Tokenizer.peekN,
        Tokenizer.advance, Tokenizer.lastPosition, List.drop_zero, hall]
      simp [hall, hd0, hfit]
  · intro ds hne hdig hfit
    norm_num at hfit
    have hall : IntLiteralMatcher.digitsLoop 16 ds = ds := digitsLoop_all 16 _ hdig
    simp only [IntLiteralMatcher.tryMatch, Tokenizer.peek, Tokenizer.peekN,
      Tokenizer.advance, Tokenizer.lastPosition]
    simp [hall, hne, hfit, List.drop]
  · intro ds hne hdig hfit
    norm_num at hfit
    have hall : IntLiteralMatcher.digitsLoop 2 ds = ds := digitsLoop_all 2 _ hdig
    simp only [IntLiteralMatcher.tryMatch, Tokenizer.peek, Tokenizer.peekN,
      Tokenizer.advance, Tokenizer.lastPosition]
    simp [hall, hne, hfit, List.drop]

/-- Witness for C2: the three general clauses instantiated at the digit
strings `007`, `1A` (hexadecimal) and `101` (binary). -/
theorem intliteral_lexeme_decimal_normalized_witness :
    IntLiteralMatcher.tryMatch ⟨['0', '0', '7'], 0⟩ =
      (.matched ⟨TokenType.IntLiteral, ['0', '0', '7'].length,
        Nat.repr (IntLiteralMatcher.fromDigits 10 ['0', '0', '7'])⟩,
       ⟨['0', '0', '7'], ['0', '0', '7'].length⟩) ∧
    IntLiteralMatcher.tryMatch ⟨'0' :: 'x' :: ['1', 'A'], 0⟩ =
      (.matched ⟨TokenType.IntLiteral, 2 + ['1', 'A'].length,
        Nat.repr (IntLiteralMatcher.fromDigits 16 ['1', 'A'])⟩,
       ⟨'0' :: 'x' :: ['1', 'A'], 2 + ['1', 'A'].length⟩) ∧
    IntLiteralMatcher.tryMatch ⟨'0' :: 'b' :: ['1', '0', '1'], 0⟩ =
      (.matched ⟨TokenType.IntLiteral, 2 + ['1', '0', '1'].length,
        Nat.repr (IntLiteralMatcher.fromDigits 2 ['1', '0', '1'])⟩,
       ⟨'0' :: 'b' :: ['1', '0', '1'], 2 + ['1', '0', '1'].length⟩) :=
  ⟨intliteral_lexeme_decimal_normalized.1 ['0', '0', '7'] (by decide) (by decide)
      (by decide),
   intliteral_lexeme_decimal_normalized.2.1 ['1', 'A'] (by decide) (by decide)
      (by decide),
   intliteral_lexeme_decimal_normalized.2.2.1 ['1', '0', '1'] (by decide) (by decide)
      (by decide)⟩

/-- C8: `WhitespaceMatcher::try_match` consumes exactly the maximal leading
run of whitespace characters and emits a single Whitespace token with empty
lexeme when the run is non-empty; it declines consuming nothing when the
current character is not whitespace; and on an input consisting solely of
whitespace the Lexer yields exactly one Whitespace token and then ends. -/
theorem whitespace_maximal_run :
    (∀ t : Tokenizer,
      WhitespaceMatcher.tryMatch t =
        if ((t.input.drop t.pos).takeWhile rustIsWhitespace).length = 0 then
          (.declined, t)
        else
          (.matched ⟨TokenType.Whitespace,
              t.pos + ((t.input.drop t.pos).takeWhile rustIsWhitespace).length, ""⟩,
            ⟨t.input, t.pos + ((t.input.drop t.pos).takeWhile rustIsWhitespace).length⟩)) ∧
    (∀ (t : Tokenizer) (c : Char), t.peek = some c → rustIsWhitespace c = false →
      WhitespaceMatcher.tryMatch t = (.declined, t)) ∧
    (∀ (l : List Char) (fuel : Nat), l ≠ [] → (∀ c ∈ l, rustIsWhitespace c = true) →
      runLexer [WhitespaceMatcher.tryMatch] (fuel + 2) ⟨l, 0⟩ =
        .ok [⟨TokenType.Whitespace, l.length, ""⟩]) := by
  refine ⟨?_, ?_, ?_⟩
  · intro t
    simp only [WhitespaceMatcher.tryMatch, wsCount_eq_takeWhile,
      Tokenizer.advance, Tokenizer.lastPosition]
  · intro t c hpk hws
    have hg : t.input.get? t.pos = some c := hpk
    have hd := drop_cons_of_get hg
    simp [WhitespaceMatcher.tryMatch, wsCount_eq_takeWhile, hd,
      List.takeWhile_cons, hws]
  · intro l fuel hne hws
    have hlen : 0 < l.length := List.length_pos.mpr hne
    have hnot : ¬(l.length ≤ 0) := by omega
    have hms : WhitespaceMatcher.tryMatch ⟨l, 0⟩ =
        (.matched ⟨TokenType.Whitespace, l.length, ""⟩, ⟨l, l.length⟩) := by
      simp [WhitespaceMatcher.tryMatch, wsCount_all l hws, hlen.ne',
        Tokenizer.advance, Tokenizer.lastPosition]
    have hdone : runLexer [WhitespaceMatcher.tryMatch] (fuel + 1) ⟨l, l.length⟩ =
        .ok [] := by
      simp [runLexer, Tokenizer.isEnd]
    simp [runLexer, Tokenizer.isEnd, hnot, firstMatch, hms, hdone]

/-- Witness for C8: declining on `a` without consuming, and lexing the
all-whitespace input consisting of a space and a tab into exactly one
empty-lexeme Whitespace token. -/
theorem whitespace_maximal_run_witness :
    WhitespaceMatcher.tryMatch ⟨['b'], 0⟩ = (.declined, ⟨['b'], 0⟩) ∧
    runLexer [WhitespaceMatcher.tryMatch] (0 + 2) ⟨[' ', '\t'], 0⟩ =
      .ok [⟨TokenType.Whitespace, [' ', '\t'].length, ""⟩] :=
  ⟨whitespace_maximal_run.2.1 ⟨['b'], 0⟩ 'b' (by decide) (by decide),
   whitespace_maximal_run.2.2 [' ', '\t'] 0 (by decide) (by decide)⟩

/-- C4: in a double-quoted string a backslash puts the scanner into escape
mode for the next character, translating `\\`, `\"`, `n`, `r`, `t` to
backslash, double quote, newline, carriage return and tab respectively (one
closed instance per escape below); in a single-quoted string no translation
happens and content is taken verbatim (general clause), so `'a\nb'` yields a
lexeme holding backslash-then-`n` as two characters while `"a\nb"` yields a
lexeme holding an actual newline. -/
theorem string_escape_translation :
    (∀ (l r : List Char), '\'' ∉ l →
      StringLiteralMatcher.tryMatch ⟨'\'' :: (l ++ '\'' :: r), 0⟩ =
        (.matched ⟨if rustStrLen l = 1 then TokenType.CharLiteral
            else TokenType.StringLiteral, l.length + 2, String.mk l⟩,
          ⟨'\'' :: (l ++ '\'' :: r), l.length + 2⟩)) ∧
    StringLiteralMatcher.tryMatch ⟨['"', 'x', '\\', '\\', 'y', '"'], 0⟩ =
      (.matched ⟨TokenType.StringLiteral, 6, "x\\y"⟩, ⟨['"', 'x', '\\', '\\', 'y', '"'], 6⟩) ∧
    StringLiteralMatcher.tryMatch ⟨['"', 'x', '\\', '"', 'y', '"'], 0⟩ =
      (.matched ⟨TokenType.StringLiteral, 6, "x\"y"⟩, ⟨['"', 'x', '\\', '"', 'y', '"'], 6⟩) ∧
    StringLiteralMatcher.tryMatch ⟨['"', 'x', '\\', 'n', 'y', '"'], 0⟩ =
      (.matched ⟨TokenType.StringLiteral, 6, "x\ny"⟩, ⟨['"', 'x', '\\', 'n', 'y', '"'], 6⟩) ∧
    StringLiteralMatcher.tryMatch ⟨['"', 'x', '\\', 'r', 'y', '"'], 0⟩ =
      (.matched ⟨TokenType.StringLiteral, 6, "x\ry"⟩, ⟨['"', 'x', '\\', 'r', 'y', '"'], 6⟩) ∧
    StringLiteralMatcher.tryMatch ⟨['"', 'x', '\\', 't', 'y', '"'], 0⟩ =
      (.matched ⟨TokenType.StringLiteral, 6, "x\ty"⟩, ⟨['"', 'x', '\\', 't', 'y', '"'], 6⟩) ∧
    StringLiteralMatcher.tryMatch ⟨['\'', 'a', '\\', 'n', 'b', '\''], 0⟩ =
      (.matched ⟨TokenType.StringLiteral, 6, "a\\nb"⟩, ⟨['\'', 'a', '\\', 'n', 'b', '\''], 6⟩) ∧
    StringLiteralMatcher.tryMatch ⟨['"', 'a', '\\', 'n', 'b', '"'], 0⟩ =
      (.matched ⟨TokenType.StringLiteral, 6, "a\nb"⟩, ⟨['"', 'a', '\\', 'n', 'b', '"'], 6⟩) := by
  refine ⟨?_, by decide, by decide, by decide, by decide, by decide, by decide, by decide⟩
  intro l r h
  have hs := scanLoop_squote_stop false l r h
  by_cases hl : rustStrLen l = 1 <;>
    simp [StringLiteralMatcher.tryMatch, Tokenizer.peek, Tokenizer.advance,
      Tokenizer.lastPosition, hs, hl, Nat.add_comm, Nat.add_assoc, Nat.add_left_comm]

/-- Witness for C4: the single-quote verbatim clause instantiated at content
backslash-`n` between `a` and `b`, exactly the claim's `'a\nb'` example. -/
theorem string_escape_translation_witness :
    StringLiteralMatcher.tryMatch ⟨'\'' :: (['a', '\\', 'n', 'b'] ++ '\'' :: []), 0⟩ =
      (.matched ⟨if rustStrLen ['a', '\\', 'n', 'b'] = 1 then TokenType.CharLiteral
          else TokenType.StringLiteral, ['a', '\\', 'n', 'b'].length + 2,
          String.mk ['a', '\\', 'n', 'b']⟩,
        ⟨'\'' :: (['a', '\\', 'n', 'b'] ++ '\'' :: []), ['a', '\\', 'n', 'b'].length + 2⟩) :=
  string_escape_translation.1 ['a', '\\', 'n', 'b'] [] (by decide)

/-- C6 counterexample: the claim quantifies over EVERY input that starts
with a quote and has no closing delimiter, but `"\q` (double quote,
backslash, `q`, end of input) starts with a quote, contains no closing
delimiter, and yet `try_match` does not return `Some` at all — the scan hits
the invalid-escape panic first.  Moreover even when such an input does yield
a token its lexeme is the escape-TRANSLATED content, not the remaining
content verbatim: unterminated `"a\nb` yields lexeme `a`, newline, `b`
(three characters), which differs from the four remaining characters. -/
theorem unterminated_string_claim_counterexample :
    (StringLiteralMatcher.tryMatch ⟨['"', '\\', 'q'], 0⟩).1 =
      .panicked "Invalid character escape: q" ∧
    StringLiteralMatcher.tryMatch ⟨['"', 'a', '\\', 'n', 'b'], 0⟩ =
      (.matched ⟨TokenType.StringLiteral, 6, "a\nb"⟩, ⟨['"', 'a', '\\', 'n', 'b'], 6⟩) ∧
    "a\nb".data ≠ ['a', '\\', 'n', 'b'] := by
  exact ⟨by decide, by decide, by decide⟩

/-- C6 as amended: after the scan loop the closing delimiter is consumed
unconditionally without verifying it exists — both clauses end with the
offset at `rest.length + 2`, one PAST the end of the `rest.length + 1`
character input.  For every input that starts with a quote character,
contains no closing delimiter before end of input and — when double-quoted —
contains no backslash, the matcher still returns `Some` token whose lexeme
is all remaining content after the opening delimiter. -/
theorem unterminated_string_returns_token :
    (∀ rest : List Char, '\'' ∉ rest →
      StringLiteralMatcher.tryMatch ⟨'\'' :: rest, 0⟩ =
        (.matched ⟨if rustStrLen rest = 1 then TokenType.CharLiteral
            else TokenType.StringLiteral, rest.length + 2, String.mk rest⟩,
          ⟨'\'' :: rest, rest.length + 2⟩)) ∧
    (∀ rest : List Char, '"' ∉ rest → '\\' ∉ rest →
      StringLiteralMatcher.tryMatch ⟨'"' :: rest, 0⟩ =
        (.matched ⟨if rustStrLen rest = 1 then TokenType.CharLiteral
            else TokenType.StringLiteral, rest.length + 2, String.mk rest⟩,
          ⟨'"' :: rest, rest.length + 2⟩)) := by
  constructor
  · intro rest h
    have hs := scanLoop_squote_all false rest h
    by_cases hl : rustStrLen rest = 1 <;>
      simp [StringLiteralMatcher.tryMatch, Tokenizer.peek, Tokenizer.advance,
        Tokenizer.lastPosition, hs, hl, Nat.add_comm, Nat.add_assoc, Nat.add_left_comm]
  · intro rest hq hb
    have hs := scanLoop_dquote_plain rest hq hb
    by_cases hl : rustStrLen rest = 1 <;>
      simp [StringLiteralMatcher.tryMatch, Tokenizer.peek, Tokenizer.advance,
        Tokenizer.lastPosition, hs, hl, Nat.add_comm, Nat.add_assoc, Nat.add_left_comm]

/-- Witness for amended C6: both clauses instantiated at unterminated
`'abc` and `"abc`; each consumes through position 5 on a 4-character
input. -/
theorem unterminated_string_returns_token_witness :
    StringLiteralMatcher.tryMatch ⟨'\'' :: ['a', 'b', 'c'], 0⟩ =
      (.matched ⟨if rustStrLen ['a', 'b', 'c'] = 1 then TokenType.CharLiteral
          else TokenType.StringLiteral, ['a', 'b', 'c'].length + 2,
          String.mk ['a', 'b', 'c']⟩, ⟨'\'' :: ['a', 'b', 'c'], ['a', 'b', 'c'].length + 2⟩) ∧
    StringLiteralMatcher.tryMatch ⟨'"' :: ['a', 'b', 'c'], 0⟩ =
      (.matched ⟨if rustStrLen ['a', 'b', 'c'] = 1 then TokenType.CharLiteral
          else TokenType.StringLiteral, ['a', 'b', 'c'].length + 2,
          String.mk ['a', 'b', 'c']⟩, ⟨'"' :: ['a', 'b', 'c'], ['a', 'b', 'c'].length + 2⟩) :=
  ⟨unterminated_string_returns_token.1 ['a', 'b', 'c'] (by decide),
   unterminated_string_returns_token.2 ['a', 'b', 'c'] (by decide) (by decide)⟩

/-- C7 counterexample: the CharLiteral test in the source is
`string.len() == 1`, Rust's UTF-8 BYTE length, not the character count.
Content `é` is exactly one character (length 1) yet its token kind is
StringLiteral, because `é` occupies two UTF-8 bytes. -/
theorem charliteral_single_char_counterexample :
    StringLiteralMatcher.tryMatch ⟨['"', 'é', '"'], 0⟩ =
      (.matched ⟨TokenType.StringLiteral, 3, "é"⟩, ⟨['"', 'é', '"'], 3⟩) ∧
    "é".length = 1 ∧
    TokenType.StringLiteral ≠ TokenType.CharLiteral := by
  exact ⟨by decide, by decide, by decide⟩

/-- C7 as amended: for every successful StringLiteralMatcher match the
emitted token's kind is CharLiteral exactly when the scanned content's UTF-8
byte length is 1 (a single ASCII character), and the kind is always one of
CharLiteral and StringLiteral; in particular `"hello"` yields a
StringLiteral with lexeme `hello` and `"h"` (or `'h'`, independent of
delimiter) yields a CharLiteral with lexeme `h`. -/
theorem charliteral_iff_single_byte :
    (∀ (t t2 : Tokenizer) (tok : Token),
      StringLiteralMatcher.tryMatch t = (.matched tok, t2) →
      ((tok.token_type = TokenType.CharLiteral ↔ rustStrLen tok.lexeme.data = 1) ∧
        (tok.token_type = TokenType.CharLiteral ∨
          tok.token_type = TokenType.StringLiteral))) ∧
    StringLiteralMatcher.tryMatch ⟨"\"hello\"".data, 0⟩ =
      (.matched ⟨TokenType.StringLiteral, 7, "hello"⟩, ⟨"\"hello\"".data, 7⟩) ∧
    StringLiteralMatcher.tryMatch ⟨"\"h\"".data, 0⟩ =
      (.matched ⟨TokenType.CharLiteral, 3, "h"⟩, ⟨"\"h\"".data, 3⟩) ∧
    StringLiteralMatcher.tryMatch ⟨"'h'".data, 0⟩ =
      (.matched ⟨TokenType.CharLiteral, 3, "h"⟩, ⟨"'h'".data, 3⟩) := by
  refine ⟨?_, by decide, by decide, by decide⟩
  intro t t2 tok h
  simp only [StringLiteralMatcher.tryMatch] at h
  cases hpk : t.peek with
  | none => rw [hpk] at h; simp at h
  | some c0 =>
    rw [hpk] at h
    simp only at h
    split at h
    · split at h
      · split at h
        · rename_i hlen
          rw [Prod.mk.injEq] at h
          obtain ⟨h1, h2⟩ := h
          injection h1 with htok
          subst htok
          simp [hlen]
        · rename_i hlen
          rw [Prod.mk.injEq] at h
          obtain ⟨h1, h2⟩ := h
          injection h1 with htok
          subst htok
          simp [hlen]
      · simp at h
    · simp at h

/-- Witness for amended C7: the byte-length clause instantiated at the
successful match of `"ab"`, whose StringLiteral token has a two-byte
lexeme. -/
theorem charliteral_iff_single_byte_witness :
    ((Token.mk TokenType.StringLiteral 4 "ab").token_type = TokenType.CharLiteral ↔
      rustStrLen (Token.mk TokenType.StringLiteral 4 "ab").lexeme.data = 1) ∧
    ((Token.mk TokenType.StringLiteral 4 "ab").token_type = TokenType.CharLiteral ∨
      (Token.mk TokenType.StringLiteral 4 "ab").token_type = TokenType.StringLiteral) :=
  charliteral_iff_single_byte.1 ⟨"\"ab\"".data, 0⟩ ⟨"\"ab\"".data, 4⟩
    ⟨TokenType.StringLiteral, 4, "ab"⟩ (by decide)

/-- C9: `IdentifierMatcher::try_match` succeeds exactly when the current
character is alphabetic or an underscore; on success it consumes that
character followed by the maximal run of continuation characters (not
whitespace, and in `"_?!"` or alphanumeric) and emits an Identifier token
whose lexeme is the full accumulated text. -/
theorem identifier_match_characterization :
    ∀ (t : Tokenizer) (c : Char), t.peek = some c →
      ((rustIsAlphabetic c || c = '_') = true →
        IdentifierMatcher.tryMatch t =
          (.matched ⟨TokenType.Identifier,
              t.pos + 1 + ((t.input.drop (t.pos + 1)).takeWhile
                IdentifierMatcher.isIdentCont).length,
              String.mk (c :: (t.input.drop (t.pos + 1)).takeWhile
                IdentifierMatcher.isIdentCont)⟩,
            ⟨t.input, t.pos + 1 + ((t.input.drop (t.pos + 1)).takeWhile
              IdentifierMatcher.isIdentCont).length⟩)) ∧
      ((rustIsAlphabetic c || c = '_') = false →
        (IdentifierMatcher.tryMatch t).1 = .declined) := by
  intro t c hpk
  constructor
  · intro hc
    simp [IdentifierMatcher.tryMatch, hpk, hc, identLoop_eq_takeWhile,
      Tokenizer.advance, Tokenizer.lastPosition]
  · intro hc
    simp [IdentifierMatcher.tryMatch, hpk, hc]

/-- Witness for C9: success on `_a!` (consuming the whole identifier) and
decline on the digit `1`. -/
theorem identifier_match_characterization_witness :
    IdentifierMatcher.tryMatch ⟨['_', 'a', '!'], 0⟩ =
      (.matched ⟨TokenType.Identifier,
          0 + 1 + (((['_', 'a', '!'] : List Char).drop (0 + 1)).takeWhile
            IdentifierMatcher.isIdentCont).length,
          String.mk ('_' :: ((['_', 'a', '!'] : List Char).drop (0 + 1)).takeWhile
            IdentifierMatcher.isIdentCont)⟩,
        ⟨['_', 'a', '!'], 0 + 1 + (((['_', 'a', '!'] : List Char).drop (0 + 1)).takeWhile
          IdentifierMatcher.isIdentCont).length⟩) ∧
    (IdentifierMatcher.tryMatch ⟨['1'], 0⟩).1 = .declined :=
  ⟨(identifier_match_characterization ⟨['_', 'a', '!'], 0⟩ '_' (by decide)).1 (by decide),
   (identifier_match_characterization ⟨['1'], 0⟩ '1' (by decide)).2 (by decide)⟩

end Smaragdine
